import Mathlib

/-!
# Crescendo AI — verification of the sensor framing, command protocol and presence fusion

Shallow embedding of `crescendo_ai/sensor.py` and `crescendo_ai/main.py`:
bytes are `ℕ` (values < 256), byte strings are `List ℕ`, wall-clock times are `ℚ`.
The first part of the file contains the definitions translated from the source;
the second part contains the theorems about them.
-/

namespace Crescendo

/-! ## Byte-level helpers (struct.pack / struct.unpack, format '<H') -/

/-- `struct.unpack` of two bytes `lo, hi`, format '<H': 16-bit little-endian value. -/
def le16 (lo hi : ℕ) : ℕ := lo + 256 * hi

/-- `struct.pack` of a 16-bit value, format '<H': the two little-endian bytes. -/
def le16bytes (x : ℕ) : List ℕ := [x % 256, x / 256]

/-! ## Protocol constants (`PresenceSensor`) -/

def FRAME_HEADER : List ℕ := [0xFD, 0xFC, 0xFB, 0xFA]
def FRAME_FOOTER : List ℕ := [0x04, 0x03, 0x02, 0x01]
def DATA_FRAME_HEADER : List ℕ := [0xF4, 0xF3, 0xF2, 0xF1]
def DATA_FRAME_FOOTER : List ℕ := [0xF8, 0xF7, 0xF6, 0xF5]

def CMD_ENABLE_CONFIG : ℕ := 0x00FF
def CMD_END_CONFIG : ℕ := 0x00FE
def CMD_SET_DISTANCE_PARAMS : ℕ := 0x0060
def CMD_SET_SENSITIVITY : ℕ := 0x0064

/-! ## Python `bytes.find` -/

/-- Does `pat` occur at the very front of `l`? -/
def leadsWith : List ℕ → List ℕ → Bool
  | [], _ => true
  | _ :: _, [] => false
  | a :: pat, b :: l => a == b && leadsWith pat l

/-- Python `buffer.find(pat)`: index of the first occurrence of `pat`
(`none` plays the role of `-1`). -/
def findSub (pat : List ℕ) : List ℕ → Option ℕ
  | [] => if leadsWith pat [] then some 0 else none
  | b :: l => if leadsWith pat (b :: l) then some 0 else (findSub pat l).map (· + 1)

/-! ## The frame-extraction loop of `PresenceSensor._read_frame`

The Python method accumulates serial input in `buffer` and runs an inner
`while len(buffer) >= 4` loop over it.  `scanBuffer` embeds one full run of
that inner loop: it either extracts a frame (`frame`) or stops to wait for
more input, retaining the trimmed buffer (`needMore`). -/

inductive ScanResult where
  | frame (f : List ℕ) (flen : ℕ)
  | needMore (rest : List ℕ)
  deriving DecidableEq, Repr

def scanBuffer (hdr ftr : List ℕ) (buf : List ℕ) : ScanResult :=
  if _h4 : buf.length < 4 then .needMore buf
  else
    match findSub hdr buf with
    | none =>
      -- no header found: keep the last 3 bytes in case a header is split
      .needMore (if 3 < buf.length then buf.drop (buf.length - 3) else buf)
    | some p =>
      -- drop the bytes before the header
      let b := buf.drop p
      if h6 : b.length < 6 then .needMore b
      else
        -- 16-bit little-endian length after the 4 header bytes
        let flen := le16 (b.getD 4 0) (b.getD 5 0)
        let total := 4 + 2 + flen + 4
        if _hc : b.length < total then .needMore b
        else
          let frame := b.take total
          if frame.drop (total - 4) = ftr then .frame frame flen
          else
            -- bad footer: skip the 4 header bytes and keep scanning
            scanBuffer hdr ftr (b.drop 4)
termination_by buf.length
decreasing_by
  simp only [List.length_drop]
  omega

/-! ## Frame encoding (`PresenceSensor._send_command`, frame construction part)

`_send_command` builds: header, 2-byte little-endian length `2 + len(command_data)`,
2-byte little-endian command word, command data, footer. -/

def encodeCommandFrame (w : ℕ) (data : List ℕ) : List ℕ :=
  FRAME_HEADER ++ le16bytes (2 + data.length) ++ le16bytes w ++ data ++ FRAME_FOOTER

/-- Command word embedded at offset 6 of a frame, as read by
`struct.unpack` of `response_frame[6:8]` in `_send_command`. -/
def frameCommandWord (frame : List ℕ) : ℕ := le16 (frame.getD 6 0) (frame.getD 7 0)

/-- The payload portion of a frame (`frame[6:6+data_length]`, as sliced in
`PresenceSensor._parse_data_frame`). -/
def framePayload (frame : List ℕ) (flen : ℕ) : List ℕ := (frame.drop 6).take flen

/-! ## Telemetry decoding

`_parse_basic_target_data`, `_parse_engineering_data` and `_parse_data_frame`
build a Python dict.  The dict is modelled by `SensorData`; an `Option` field
being `none` plays the role of the key being absent, and `parseDataFrame`
returning `none` plays the role of the empty dict `{}` (the falsy value that
`read_data` tests with `if parsed_data:`). -/

structure BasicTarget where
  target_status : ℕ
  move_distance : ℕ
  move_energy : ℕ
  static_distance : ℕ
  static_energy : ℕ
  detection_distance : ℕ
  presence : Bool
  deriving DecidableEq, Repr

structure GateEnergy where
  gate : ℕ
  distance_m : ℚ
  move_energy : ℕ
  static_energy : ℕ
  deriving DecidableEq, Repr

structure SensorData where
  data_type : ℕ
  basic : Option BasicTarget
  max_move_gate : Option ℕ
  max_static_gate : Option ℕ
  gate_energies : Option (List GateEnergy)
  deriving DecidableEq, Repr

/-- `PresenceSensor._parse_basic_target_data`. -/
def parseBasicTargetData (td : List ℕ) : Option BasicTarget :=
  if td.length < 10 then none
  else some {
    target_status := td.getD 0 0
    move_distance := le16 (td.getD 1 0) (td.getD 2 0)
    move_energy := td.getD 3 0
    static_distance := le16 (td.getD 4 0) (td.getD 5 0)
    static_energy := td.getD 6 0
    detection_distance := le16 (td.getD 7 0) (td.getD 8 0)
    presence := decide (0 < td.getD 0 0) }

/-- The per-gate energy loop of `PresenceSensor._parse_engineering_data`
(`gates = min(8, len(energy_data) // 2)`, 0.75 m per gate). -/
def parseGateEnergies (energy : List ℕ) : List GateEnergy :=
  let gates := min 8 (energy.length / 2)
  ((List.range gates).filter (fun i => decide (i * 2 + 1 < energy.length))).map
    (fun i =>
      { gate := i
        distance_m := (i : ℚ) * (3 / 4)
        move_energy := if i * 2 < energy.length then energy.getD (i * 2) 0 else 0
        static_energy := if i * 2 + 1 < energy.length then energy.getD (i * 2 + 1) 0 else 0 })

/-- The non-`data_type` part of the dict built by a parse (`basic` holds the
keys from `_parse_basic_target_data`, the rest the engineering extras). -/
structure EngData where
  basic : Option BasicTarget
  max_move_gate : Option ℕ
  max_static_gate : Option ℕ
  gate_energies : Option (List GateEnergy)
  deriving DecidableEq, Repr

/-- `PresenceSensor._parse_engineering_data`. -/
def parseEngineeringData (td : List ℕ) : EngData :=
  if 10 ≤ td.length then
    let basic := parseBasicTargetData (td.take 10)
    if 10 < td.length then
      let eng := td.drop 10
      if 2 ≤ eng.length then
        let mmg := if 0 < eng.length then eng.getD 0 0 else 0
        let msg := if 1 < eng.length then eng.getD 1 0 else 0
        if 2 < eng.length then
          { basic := basic, max_move_gate := some mmg, max_static_gate := some msg
            gate_energies := some (parseGateEnergies (eng.drop 2)) }
        else
          { basic := basic, max_move_gate := some mmg, max_static_gate := some msg
            gate_energies := none }
      else
        { basic := basic, max_move_gate := none, max_static_gate := none
          gate_energies := none }
    else
      { basic := basic, max_move_gate := none, max_static_gate := none
        gate_energies := none }
  else
    { basic := none, max_move_gate := none, max_static_gate := none
      gate_energies := none }

/-- `PresenceSensor._parse_data_frame`. -/
def parseDataFrame (frame : List ℕ) (dataLength : ℕ) : Option SensorData :=
  if frame.length < 10 then none
  else
    let header := frame.take 4
    let dataPortion := (frame.drop 6).take dataLength
    let footer := (frame.drop (6 + dataLength)).take 4
    if header ≠ DATA_FRAME_HEADER ∨ footer ≠ DATA_FRAME_FOOTER then none
    else if dataPortion.length < 3 then none
    else
      let dataType := dataPortion.getD 0 0
      let head := dataPortion.getD 1 0
      if head ≠ 0xAA then none
      else if dataType = 0x02 then
        match parseBasicTargetData (dataPortion.drop 2) with
        | some bt => some { data_type := dataType, basic := some bt
                            max_move_gate := none, max_static_gate := none
                            gate_energies := none }
        | none => some { data_type := dataType, basic := none
                         max_move_gate := none, max_static_gate := none
                         gate_energies := none }
      else if dataType = 0x01 then
        let e := parseEngineeringData (dataPortion.drop 2)
        some { data_type := dataType, basic := e.basic
               max_move_gate := e.max_move_gate, max_static_gate := e.max_static_gate
               gate_energies := e.gate_energies }
      else
        some { data_type := dataType, basic := none
               max_move_gate := none, max_static_gate := none
               gate_energies := none }

/-- One call of `PresenceSensor.read_data`, given the stored `_last_data`
(`none` = empty dict) and the frame returned by `_read_frame`.  Returns the
pair (value returned to the caller, new `_last_data`). -/
def read_data (last : Option SensorData) (frame : List ℕ) (flen : ℕ) :
    Option SensorData × Option SensorData :=
  match parseDataFrame frame flen with
  | some r => (some r, some r)
  | none => (last, last)

/-- `self._last_data.get` of key target-status with default `0`. -/
def targetStatusOf (last : Option SensorData) : ℕ :=
  match last with
  | none => 0
  | some d =>
    match d.basic with
    | none => 0
    | some bt => bt.target_status

/-- `PresenceSensor.is_static_target_detected`. -/
def is_static_target_detected (last : Option SensorData) : Bool :=
  ([0x02, 0x03] : List ℕ).contains (targetStatusOf last)

/-- `PresenceSensor.is_moving_target_detected`. -/
def is_moving_target_detected (last : Option SensorData) : Bool :=
  ([0x01, 0x03] : List ℕ).contains (targetStatusOf last)

/-- `PresenceSensor.get_static_energy`. -/
def get_static_energy (last : Option SensorData) : ℕ :=
  match last with
  | none => 0
  | some d =>
    match d.basic with
    | none => 0
    | some bt => bt.static_energy

/-- `PresenceSensor.get_move_energy`. -/
def get_move_energy (last : Option SensorData) : ℕ :=
  match last with
  | none => 0
  | some d =>
    match d.basic with
    | none => 0
    | some bt => bt.move_energy

/-! ## The command/ACK exchange (`PresenceSensor._send_command`)

After writing the command frame, `_send_command` reads one response frame and
unpacks the ACK word at `response_frame[6:8]` and the status at
`response_frame[8:10]`.  When a slice holds fewer than 2 bytes the unpack
raises the `struct.error` "unpack requires a buffer of 2 bytes", which the
retry handler catches; `processResponse` models that error as `none`. -/

def processResponse (w : ℕ) (resp : List ℕ) : Option Bool :=
  if resp.length < 8 then none
  else
    let ack := le16 (resp.getD 6 0) (resp.getD 7 0)
    let expected := w ||| 0x0100
    if ack ≠ expected then some false
    else if resp.length < 10 then none
    else some (le16 (resp.getD 8 0) (resp.getD 9 0) == 0)

/-- The `while True` retry loop of `_send_command`: `resps n` is the response
frame obtained on attempt `n`.  Returns the boolean result together with the
number of restart-and-settle recovery cycles performed (each cycle is one
`self.restart()` followed by the fixed 2-second settle delay). -/
def sendCommand (w : ℕ) (resps : ℕ → List ℕ) : Bool × ℕ :=
  match processResponse w (resps 0) with
  | some b => (b, 0)
  | none =>
    -- first unpack failure: restart the sensor, wait, retry once
    match processResponse w (resps 1) with
    | some b => (b, 1)
    | none => (false, 1)

/-! ## The configuration sequence (`PresenceSensor.configure`) -/

inductive ConfigStep where
  | enableConfig
  | setDistanceParams
  | setSensitivity (gate : ℕ)
  | endConfig
  deriving DecidableEq, Repr

/-- The outcome each `_send_command` exchange would have during `configure`. -/
structure ConfigEnv where
  enableOk : Bool
  setDistOk : Bool
  sensOk : ℕ → Bool
  endOk : Bool

/-- `PresenceSensor.configure`: the ordered trace of commands sent and the
return value.  `numGates` is `min(len(motion_sensitivity), len(static_sensitivity))`.
A failed per-gate sensitivity exchange only logs a warning and the loop
continues; a failed set-distance exchange sends end-config and returns `False`. -/
def configure (env : ConfigEnv) (numGates : ℕ) : List ConfigStep × Bool :=
  if env.enableOk = false then ([.enableConfig], false)
  else if env.setDistOk = false then
    ([.enableConfig, .setDistanceParams, .endConfig], false)
  else
    ([.enableConfig, .setDistanceParams]
        ++ (List.range numGates).map ConfigStep.setSensitivity ++ [.endConfig],
      env.endOk)

/-! ## Presence fusion and control loop (`CrescendoSystem._check_presence_and_update`)

State variables of `CrescendoSystem` touched by one tick, plus the state of the
relay and audio collaborators.  Times are rationals (Python floats). -/

structure SysState where
  last_presence_time : Option ℚ
  dynamic_detection_history : List ℚ
  dynamic_detection_active_until : Option ℚ
  relayOn : Bool
  audioPlaying : Bool
  deriving DecidableEq, Repr

structure SysConfig where
  relay_off_delay : ℚ
  dynamic_detection_duration : ℚ
  relayConnected : Bool
  deriving DecidableEq, Repr

/-- What one tick computed, along with the successor state. -/
structure TickResult where
  state : SysState
  dynamic_detection_active : Bool
  static_detected : Bool
  robust_presence_detected : Bool
  deriving DecidableEq, Repr

/-- Truthiness test `self.dynamic_detection_active_until and
current_time < self.dynamic_detection_active_until` (both `None` and `0.0`
are falsy in Python). -/
def activeUntilHolds (au : Option ℚ) (now : ℚ) : Bool :=
  match au with
  | none => false
  | some v => decide (v ≠ 0) && decide (now < v)

/-- One tick of `CrescendoSystem._check_presence_and_update`, with the two
sensor queries (`is_moving_target_detected`, `is_static_target_detected`)
passed in as inputs. -/
def checkPresenceAndUpdate (cfg : SysConfig) (s : SysState) (now : ℚ)
    (dynamic_detected static_detected : Bool) : TickResult :=
  -- append to history on detection
  let hist0 := if dynamic_detected then s.dynamic_detection_history ++ [now]
               else s.dynamic_detection_history
  -- remove entries older than 3 seconds
  let hist := hist0.filter (fun t => decide (now - t ≤ 3))
  let continuous_detection := decide (3 ≤ hist.length)
  let dynamic_detection_active :=
    if continuous_detection then true
    else if activeUntilHolds s.dynamic_detection_active_until now then true
    else false
  -- active-until is refreshed only on a continuous detection
  let au := if continuous_detection then some (now + cfg.dynamic_detection_duration)
            else s.dynamic_detection_active_until
  let robust := dynamic_detection_active && static_detected
  -- `now - last_presence_time > relay_off_delay`, with a missing last-presence
  -- time short-circuiting to false; computed by the source but never usable,
  -- see below
  let _relay_timeout_is_complete :=
    match s.last_presence_time with
    | none => false
    | some lp => decide (cfg.relay_off_delay < now - lp)
  -- The two branches of `if robust_presence_detected:` only mutate state.
  -- Both relay conditions call `self.relay.is_turned_on()`, a method `USBRelay`
  -- does not define: with a connected relay (`is_connected()` true, so the
  -- conjunction does not short-circuit) this raises `AttributeError`, which the
  -- `except Exception` handler at the end of `_check_presence_and_update`
  -- swallows, aborting the rest of the branch.  Hence `relay.turn_on()` and
  -- `relay.turn_off()` are unreachable and `relayOn` never changes; in the
  -- robust branch the exception fires before `audio_player.play()`, while in
  -- the non-robust branch `audio_player.stop()` runs before the relay check.
  let st :=
    if robust then
      -- `self.last_presence_time = current_time` runs first
      if cfg.relayConnected then
        -- AttributeError in the relay check: play() is never reached
        { last_presence_time := some now
          dynamic_detection_history := hist
          dynamic_detection_active_until := au
          relayOn := s.relayOn
          audioPlaying := s.audioPlaying }
      else
        -- is_connected() is false: the relay condition short-circuits, play() runs
        { last_presence_time := some now
          dynamic_detection_history := hist
          dynamic_detection_active_until := au
          relayOn := s.relayOn
          audioPlaying := if !s.audioPlaying then true else s.audioPlaying }
    else
      -- stop() runs; the relay check then either raises (connected) or
      -- short-circuits (not connected) — the relay stays as it was
      { last_presence_time := s.last_presence_time
        dynamic_detection_history := hist
        dynamic_detection_active_until := au
        relayOn := s.relayOn
        audioPlaying := if s.audioPlaying then false else s.audioPlaying }
  { state := st
    dynamic_detection_active := dynamic_detection_active
    static_detected := static_detected
    robust_presence_detected := robust }

/-- Iterate ticks; each list entry is (current time, moving detected, static detected). -/
def runTicks (cfg : SysConfig) : SysState → List (ℚ × Bool × Bool) → SysState
  | s, [] => s
  | s, (t, dyn, stat) :: rest =>
    runTicks cfg (checkPresenceAndUpdate cfg s t dyn stat).state rest

/-- Iterate ticks, collecting each tick's `TickResult`. -/
def runOutputs (cfg : SysConfig) : SysState → List (ℚ × Bool × Bool) → List TickResult
  | _, [] => []
  | s, (t, dyn, stat) :: rest =>
    let r := checkPresenceAndUpdate cfg s t dyn stat
    r :: runOutputs cfg r.state rest

/-- `CrescendoSystem.__init__` state: no presence seen, empty history, no
active-until, relay off, audio stopped. -/
def initialState : SysState :=
  { last_presence_time := none
    dynamic_detection_history := []
    dynamic_detection_active_until := none
    relayOn := false
    audioPlaying := false }

/-- System configuration with the given relay off-delay, the fixed 300-second
dynamic detection duration, and a connected relay. -/
def mkConfig (offDelay : ℚ) : SysConfig :=
  { relay_off_delay := offDelay
    dynamic_detection_duration := 300
    relayConnected := true }

/-! # Theorems -/

/-! ## Helper lemmas on the byte-level functions -/

theorem le16_le16bytes (x : ℕ) : le16 (x % 256) (x / 256) = x := by
  simpa [le16] using Nat.mod_add_div x 256

theorem leadsWith_iff_append (pat l : List ℕ) :
    leadsWith pat l = true ↔ ∃ t, l = pat ++ t := by
  induction pat generalizing l with
  | nil => simp [leadsWith]
  | cons a pat ih =>
    cases l with
    | nil => simp [leadsWith]
    | cons b l =>
      simp only [leadsWith, Bool.and_eq_true, beq_iff_eq, ih, List.cons_append,
        List.cons.injEq]
      constructor
      · rintro ⟨rfl, t, rfl⟩; exact ⟨t, rfl, rfl⟩
      · rintro ⟨t, rfl, rfl⟩; exact ⟨rfl, t, rfl⟩

theorem findSub_of_leadsWith {pat l : List ℕ} (h : leadsWith pat l = true) :
    findSub pat l = some 0 := by
  cases l with
  | nil => simp [findSub, h]
  | cons b l => simp [findSub, h]

theorem leadsWith_drop_of_findSub {pat l : List ℕ} {p : ℕ}
    (h : findSub pat l = some p) : leadsWith pat (l.drop p) = true := by
  induction l generalizing p with
  | nil =>
    simp only [findSub] at h
    split at h
    · rename_i hl
      cases h
      exact hl
    · cases h
  | cons b l ih =>
    simp only [findSub] at h
    split at h
    · rename_i hl
      cases h
      exact hl
    · cases hfind : findSub pat l with
      | none => rw [hfind] at h; cases h
      | some q =>
        rw [hfind] at h
        simp only [Option.map_some'] at h
        cases h
        exact ih hfind

theorem encodeCommandFrame_length (w : ℕ) (p : List ℕ) :
    (encodeCommandFrame w p).length = 12 + p.length := by
  simp [encodeCommandFrame, FRAME_HEADER, FRAME_FOOTER, le16bytes]
  omega

theorem scan_encode (w : ℕ) (p : List ℕ) :
    scanBuffer FRAME_HEADER FRAME_FOOTER (encodeCommandFrame w p)
      = .frame (encodeCommandFrame w p) (2 + p.length) := by
  have hlen := encodeCommandFrame_length w p
  have hfind : findSub FRAME_HEADER (encodeCommandFrame w p) = some 0 := by
    apply findSub_of_leadsWith
    simp [encodeCommandFrame, FRAME_HEADER, leadsWith]
  have hgd4 : (encodeCommandFrame w p).getD 4 0 = (2 + p.length) % 256 := rfl
  have hgd5 : (encodeCommandFrame w p).getD 5 0 = (2 + p.length) / 256 := rfl
  rw [scanBuffer.eq_def]
  rw [dif_neg (by omega)]
  rw [hfind]
  simp only [List.drop_zero, hgd4, hgd5, le16_le16bytes]
  rw [dif_neg (by omega)]
  rw [dif_neg (by omega)]
  have htot : 4 + 2 + (2 + p.length) + 4 = (encodeCommandFrame w p).length := by omega
  have hsplit : encodeCommandFrame w p
      = (FRAME_HEADER ++ le16bytes (2 + p.length) ++ le16bytes w ++ p) ++ FRAME_FOOTER := by
    simp [encodeCommandFrame, List.append_assoc]
  have hplen : (FRAME_HEADER ++ le16bytes (2 + p.length) ++ le16bytes w ++ p).length
      = (encodeCommandFrame w p).length - 4 := by
    simp [FRAME_HEADER, le16bytes, encodeCommandFrame, FRAME_FOOTER]
  have hfoot : (encodeCommandFrame w p).drop ((encodeCommandFrame w p).length - 4)
      = FRAME_FOOTER := by
    calc (encodeCommandFrame w p).drop ((encodeCommandFrame w p).length - 4)
        = ((FRAME_HEADER ++ le16bytes (2 + p.length) ++ le16bytes w ++ p) ++ FRAME_FOOTER).drop
            ((encodeCommandFrame w p).length - 4) := by rw [← hsplit]
      _ = FRAME_FOOTER := List.drop_left' hplen
  rw [htot, List.take_length, if_pos hfoot]

theorem decode_word (w : ℕ) (p : List ℕ) :
    frameCommandWord (encodeCommandFrame w p) = w := by
  have h6 : (encodeCommandFrame w p).getD 6 0 = w % 256 := rfl
  have h7 : (encodeCommandFrame w p).getD 7 0 = w / 256 := rfl
  rw [frameCommandWord, h6, h7, le16_le16bytes]

theorem decode_payload (w : ℕ) (p : List ℕ) :
    (framePayload (encodeCommandFrame w p) (2 + p.length)).drop 2 = p := by
  have hdrop6 : (encodeCommandFrame w p).drop 6
      = w % 256 :: w / 256 :: (p ++ FRAME_FOOTER) := rfl
  have h2 : 2 + p.length = p.length + 1 + 1 := by omega
  rw [framePayload, hdrop6, h2]
  rw [List.take_succ_cons, List.take_succ_cons, List.take_left' rfl]
  rfl

/-! ## C4 — framing round-trip -/

/-- C4.  Framing round-trip: for every 16-bit command word `W` and every
payload `P` of bytes whose encoded length fits the 16-bit length field,
feeding the encoded frame (header, 16-bit little-endian length `2 + len(P)`,
`W` little-endian, `P`, footer) to the frame scanner yields exactly that frame
with declared length `2 + len(P)`, and reading the embedded command word and
the payload data back from the frame recovers exactly `W` and `P`. -/
theorem C4_framing_roundtrip (w : ℕ) (p : List ℕ)
    (_hw : w < 65536) (_hplen : 2 + p.length < 65536) (_hbytes : ∀ b ∈ p, b < 256) :
    scanBuffer FRAME_HEADER FRAME_FOOTER (encodeCommandFrame w p)
        = ScanResult.frame (encodeCommandFrame w p) (2 + p.length)
      ∧ frameCommandWord (encodeCommandFrame w p) = w
      ∧ (framePayload (encodeCommandFrame w p) (2 + p.length)).drop 2 = p :=
  ⟨scan_encode w p, decode_word w p, decode_payload w p⟩

/-- Witness for C4 at the concrete exchange `W = 0x0061`, `P = [0x01, 0x00]`. -/
theorem C4_framing_roundtrip_witness :
    scanBuffer FRAME_HEADER FRAME_FOOTER (encodeCommandFrame 0x61 [1, 0])
        = ScanResult.frame (encodeCommandFrame 0x61 [1, 0]) (2 + [1, 0].length)
      ∧ frameCommandWord (encodeCommandFrame 0x61 [1, 0]) = 0x61
      ∧ (framePayload (encodeCommandFrame 0x61 [1, 0]) (2 + [1, 0].length)).drop 2 = [1, 0] :=
  C4_framing_roundtrip 0x61 [1, 0] (by decide) (by decide) (by decide)

/-! ## C5 — resynchronization drops only the header -/

/-- C5.  Resynchronization policy: whenever the scanner finds a header at
position `p`, has a complete candidate frame of the declared length buffered,
and the footer check fails, it continues scanning on exactly the bytes that
follow the 4 header bytes: only the header is dropped from the front of the
(header-aligned) buffer, the rest of the candidate frame is kept. -/
theorem C5_resync_drops_header_only (hdr ftr buf : List ℕ) (p : ℕ)
    (hhdr : hdr.length = 4)
    (hfind : findSub hdr buf = some p)
    (h6 : ¬ (buf.drop p).length < 6)
    (hcomplete : ¬ (buf.drop p).length
        < 4 + 2 + le16 ((buf.drop p).getD 4 0) ((buf.drop p).getD 5 0) + 4)
    (hfoot : ((buf.drop p).take
          (4 + 2 + le16 ((buf.drop p).getD 4 0) ((buf.drop p).getD 5 0) + 4)).drop
        (4 + 2 + le16 ((buf.drop p).getD 4 0) ((buf.drop p).getD 5 0) + 4 - 4) ≠ ftr) :
    ∃ rest, buf.drop p = hdr ++ rest
      ∧ scanBuffer hdr ftr buf = scanBuffer hdr ftr rest := by
  have hlead := leadsWith_drop_of_findSub hfind
  obtain ⟨rest, hrest⟩ := (leadsWith_iff_append hdr (buf.drop p)).1 hlead
  refine ⟨rest, hrest, ?_⟩
  have hlenp : (buf.drop p).length = buf.length - p := List.length_drop ..
  have h4 : ¬ buf.length < 4 := by omega
  rw [scanBuffer.eq_def]
  rw [dif_neg h4, hfind]
  simp only [dif_neg h6, dif_neg hcomplete, if_neg hfoot]
  rw [hrest, List.drop_left' hhdr]

/-- Witness for C5: a buffered candidate with valid header, declared length 2
and corrupted footer `[9, 9, 9, 9]`. -/
theorem C5_resync_drops_header_only_witness :
    ∃ rest, (([253, 252, 251, 250, 2, 0, 170, 187, 9, 9, 9, 9] : List ℕ)).drop 0
        = FRAME_HEADER ++ rest
      ∧ scanBuffer FRAME_HEADER FRAME_FOOTER
            [253, 252, 251, 250, 2, 0, 170, 187, 9, 9, 9, 9]
          = scanBuffer FRAME_HEADER FRAME_FOOTER rest :=
  C5_resync_drops_header_only FRAME_HEADER FRAME_FOOTER
    [253, 252, 251, 250, 2, 0, 170, 187, 9, 9, 9, 9] 0
    (by decide) (by decide) (by decide) (by decide) (by decide)


/-! ## C9 / C10 — stale-reading fallback and defaults -/

/-- Claim C9 as stated is false on the code: a well-framed data frame whose
payload is `[0x02, 0xAA, 0x07]` (basic data type, valid 0xAA marker, but
target data too short for the ten basic-field bytes — a semantic decode
failure) makes `_parse_data_frame` return a truthy stub dict holding only the
data-type keys.  `read_data` therefore stores and returns that stub instead of
keeping the previous reading, and `is_static_target_detected` stops reporting
the old reading's target status (it falls back to the default status 0). -/
theorem C9_stale_fallback_cex :
    parseDataFrame [0xF4, 0xF3, 0xF2, 0xF1, 3, 0, 0x02, 0xAA, 0x07,
        0xF8, 0xF7, 0xF6, 0xF5] 3
      = some { data_type := 2, basic := none, max_move_gate := none
               max_static_gate := none, gate_energies := none }
    ∧ read_data
        (some { data_type := 2
                basic := some { target_status := 3, move_distance := 100
                                move_energy := 50, static_distance := 200
                                static_energy := 40, detection_distance := 150
                                presence := true }
                max_move_gate := none, max_static_gate := none
                gate_energies := none })
        [0xF4, 0xF3, 0xF2, 0xF1, 3, 0, 0x02, 0xAA, 0x07, 0xF8, 0xF7, 0xF6, 0xF5] 3
      ≠ ((some { data_type := 2
                 basic := some { target_status := 3, move_distance := 100
                                 move_energy := 50, static_distance := 200
                                 static_energy := 40, detection_distance := 150
                                 presence := true }
                 max_move_gate := none, max_static_gate := none
                 gate_energies := none }),
         (some { data_type := 2
                 basic := some { target_status := 3, move_distance := 100
                                 move_energy := 50, static_distance := 200
                                 static_energy := 40, detection_distance := 150
                                 presence := true }
                 max_move_gate := none, max_static_gate := none
                 gate_energies := none }))
    ∧ is_static_target_detected
        (some { data_type := 2
                basic := some { target_status := 3, move_distance := 100
                                move_energy := 50, static_distance := 200
                                static_energy := 40, detection_distance := 150
                                presence := true }
                max_move_gate := none, max_static_gate := none
                gate_energies := none }) = true
    ∧ is_static_target_detected
        (read_data
          (some { data_type := 2
                  basic := some { target_status := 3, move_distance := 100
                                  move_energy := 50, static_distance := 200
                                  static_energy := 40, detection_distance := 150
                                  presence := true }
                  max_move_gate := none, max_static_gate := none
                  gate_energies := none })
          [0xF4, 0xF3, 0xF2, 0xF1, 3, 0, 0x02, 0xAA, 0x07,
           0xF8, 0xF7, 0xF6, 0xF5] 3).2 = false := by
  decide

/-- C9 (amended).  The stale-reading fallback holds exactly when
`_parse_data_frame` returns the empty dict (which covers the timeout's empty
frame, a frame under 10 bytes, a header/footer mismatch, a data portion under
3 bytes, and a marker byte other than 0xAA): then `read_data` returns the most
recent previously successful reading unchanged (or the empty result if none
ever succeeded), the stored last-reading state is not modified, and the
presence queries keep reporting the old reading's status and energies.  But
when a well-framed frame's target data is too short for the ten basic-field
bytes, the parse yields a non-empty stub reading without target fields:
`read_data` stores and returns that stub, and the queries then report the
default status 0 and energy 0 rather than the old reading's values. -/
theorem C9_stale_fallback (last : Option SensorData) (frame : List ℕ) (flen : ℕ) :
    (parseDataFrame frame flen = none →
        read_data last frame flen = (last, last)
        ∧ is_static_target_detected (read_data last frame flen).2
            = is_static_target_detected last
        ∧ is_moving_target_detected (read_data last frame flen).2
            = is_moving_target_detected last
        ∧ get_static_energy (read_data last frame flen).2 = get_static_energy last
        ∧ get_move_energy (read_data last frame flen).2 = get_move_energy last)
    ∧ (∀ d, parseDataFrame frame flen = some d → d.basic = none →
        read_data last frame flen = (some d, some d)
        ∧ is_static_target_detected (some d) = false
        ∧ is_moving_target_detected (some d) = false
        ∧ get_static_energy (some d) = 0
        ∧ get_move_energy (some d) = 0) := by
  constructor
  · intro hfail
    simp [read_data, hfail]
  · intro d hd hb
    refine ⟨by simp [read_data, hd], ?_, ?_, ?_, ?_⟩ <;>
      simp [is_static_target_detected, is_moving_target_detected,
        get_static_energy, get_move_energy, targetStatusOf, hb]

/-- Witness for C9: a timeout (empty frame, length 0) leaves a stored basic
reading untouched, while the truncated-payload stub frame replaces it. -/
theorem C9_stale_fallback_witness :
    read_data
        (some { data_type := 2
                basic := some { target_status := 3, move_distance := 100
                                move_energy := 50, static_distance := 200
                                static_energy := 40, detection_distance := 150
                                presence := true }
                max_move_gate := none, max_static_gate := none
                gate_energies := none })
        [] 0
      = (some { data_type := 2
                basic := some { target_status := 3, move_distance := 100
                                move_energy := 50, static_distance := 200
                                static_energy := 40, detection_distance := 150
                                presence := true }
                max_move_gate := none, max_static_gate := none
                gate_energies := none },
         some { data_type := 2
                basic := some { target_status := 3, move_distance := 100
                                move_energy := 50, static_distance := 200
                                static_energy := 40, detection_distance := 150
                                presence := true }
                max_move_gate := none, max_static_gate := none
                gate_energies := none })
    ∧ read_data
        (some { data_type := 2
                basic := some { target_status := 3, move_distance := 100
                                move_energy := 50, static_distance := 200
                                static_energy := 40, detection_distance := 150
                                presence := true }
                max_move_gate := none, max_static_gate := none
                gate_energies := none })
        [0xF4, 0xF3, 0xF2, 0xF1, 3, 0, 0x02, 0xAA, 0x07, 0xF8, 0xF7, 0xF6, 0xF5] 3
      = (some { data_type := 2, basic := none, max_move_gate := none
                max_static_gate := none, gate_energies := none },
         some { data_type := 2, basic := none, max_move_gate := none
                max_static_gate := none, gate_energies := none }) := by
  constructor
  · exact ((C9_stale_fallback _ [] 0).1 (by decide)).1
  · exact ((C9_stale_fallback _
      [0xF4, 0xF3, 0xF2, 0xF1, 3, 0, 0x02, 0xAA, 0x07, 0xF8, 0xF7, 0xF6, 0xF5] 3).2
      { data_type := 2, basic := none, max_move_gate := none
        max_static_gate := none, gate_energies := none }
      (by decide) (by decide)).1

/-- C10.  Defaults before the first reading: while the last-reading store is
still empty, `is_moving_target_detected` and `is_static_target_detected`
return false and `get_static_energy` and `get_move_energy` return 0 (the
functions are total, so nothing is raised). -/
theorem C10_defaults_before_first_reading :
    is_moving_target_detected none = false
      ∧ is_static_target_detected none = false
      ∧ get_static_energy none = 0
      ∧ get_move_energy none = 0 := by
  decide

/-! ## C6 / C7 — ACK matching and desync retry -/

/-- C6.  ACK matching: for a command exchange with word `W` whose response
frame is long enough to unpack the embedded word at offset 6, a response whose
embedded word differs from `W | 0x0100` makes the exchange return failure,
whatever the status bytes hold; when the embedded word matches, the exchange
succeeds exactly when the 16-bit status field at offset 8 equals 0. -/
theorem C6_ack_matching (w : ℕ) (resps : ℕ → List ℕ)
    (h8 : ¬ (resps 0).length < 8) :
    (le16 ((resps 0).getD 6 0) ((resps 0).getD 7 0) ≠ (w ||| 0x0100) →
        sendCommand w resps = (false, 0))
    ∧ (le16 ((resps 0).getD 6 0) ((resps 0).getD 7 0) = (w ||| 0x0100) →
        ¬ (resps 0).length < 10 →
        (sendCommand w resps = (true, 0)
          ↔ le16 ((resps 0).getD 8 0) ((resps 0).getD 9 0) = 0)) := by
  constructor
  · intro hne
    simp only [sendCommand, processResponse]
    rw [if_neg h8, if_pos hne]
  · intro heq h10
    simp only [sendCommand, processResponse]
    rw [if_neg h8, if_neg (not_not_intro heq), if_neg h10]
    simp [Prod.ext_iff]

/-- Witness for C6: for `W = 0x0061` (expected ACK 0x0161), a response with
embedded word 0x0162 and status 0 fails, one with word 0x0161 and status 0
succeeds. -/
theorem C6_ack_matching_witness :
    sendCommand 0x61 (fun _ => [0, 0, 0, 0, 0, 0, 98, 1, 0, 0]) = (false, 0)
      ∧ sendCommand 0x61 (fun _ => [0, 0, 0, 0, 0, 0, 97, 1, 0, 0]) = (true, 0) := by
  constructor
  · exact (C6_ack_matching 0x61 _ (by decide)).1 (by decide)
  · exact ((C6_ack_matching 0x61 _ (by decide)).2 (by decide) (by decide)).mpr (by decide)

/-- C7.  Desync recovery retries exactly once: when decoding the first
response fails with the short-buffer unpack error, the engine performs exactly
one restart-and-settle recovery cycle and retries the exchange once, returning
that retry's result; if the retry fails the same way, the call returns a hard
failure with the recovery-cycle count still 1 — no further retry. -/
theorem C7_desync_retry (w : ℕ) (resps : ℕ → List ℕ)
    (hfail : processResponse w (resps 0) = none) :
    (sendCommand w resps).2 = 1
      ∧ (∀ b, processResponse w (resps 1) = some b → sendCommand w resps = (b, 1))
      ∧ (processResponse w (resps 1) = none → sendCommand w resps = (false, 1)) := by
  cases h1 : processResponse w (resps 1) with
  | none => simp [sendCommand, hfail, h1]
  | some b => simp [sendCommand, hfail, h1]

/-- Witness for C7: an empty first response (short-buffer unpack error)
followed by a valid ACK yields success after exactly one recovery cycle. -/
theorem C7_desync_retry_witness :
    (sendCommand 0x61 (fun n => if n = 0 then [] else [0, 0, 0, 0, 0, 0, 97, 1, 0, 0])).2 = 1
      ∧ sendCommand 0x61 (fun n => if n = 0 then [] else [0, 0, 0, 0, 0, 0, 97, 1, 0, 0])
          = (true, 1) := by
  have h := C7_desync_retry 0x61
    (fun n => if n = 0 then [] else [0, 0, 0, 0, 0, 0, 97, 1, 0, 0]) (by decide)
  exact ⟨h.1, h.2.1 true (by decide)⟩

/-! ## C8 — configuration-sequence cleanup -/

/-- Claim C8 as stated is false on the code: it requires that whenever any
step after enable fails, end-configuration-mode is attempted *before returning
failure*, but a failed per-gate set-sensitivity exchange is only logged, the
loop continues, and `configure` can still return success (here: gate 0 fails,
everything else succeeds, and the result is `true`). -/
theorem C8_cleanup_cex :
    ¬ ∀ (env : ConfigEnv) (n : ℕ), env.enableOk = true →
        (env.setDistOk = false ∨ (∃ g, g < n ∧ env.sensOk g = false)
            ∨ env.endOk = false) →
        (ConfigStep.endConfig ∈ (configure env n).1 ∧ (configure env n).2 = false) := by
  intro h
  have hc := h { enableOk := true, setDistOk := true
                 sensOk := fun g => decide (0 < g), endOk := true } 8 rfl
    (Or.inr (Or.inl ⟨0, by decide, by decide⟩))
  exact absurd hc.2 (by decide)

/-- C8 (amended).  Whenever enable-configuration-mode succeeds, the engine
always attempts end-configuration-mode, whatever later steps fail; a failed
set-distance-parameters step or a failed end-configuration step yields a
failure return, while a failed per-gate set-sensitivity step is only logged
and leaves the return value determined by the end-configuration exchange. -/
theorem C8_cleanup_amended (env : ConfigEnv) (n : ℕ) (henable : env.enableOk = true) :
    ConfigStep.endConfig ∈ (configure env n).1
      ∧ (env.setDistOk = false → (configure env n).2 = false)
      ∧ (env.endOk = false → (configure env n).2 = false)
      ∧ (env.setDistOk = true → (configure env n).2 = env.endOk) := by
  by_cases hd : env.setDistOk = false <;>
    simp_all [configure]

/-- Witness for C8: enable and set-distance succeed, end-config fails:
end-config appears in the trace and configure returns failure. -/
theorem C8_cleanup_amended_witness :
    ConfigStep.endConfig
        ∈ (configure { enableOk := true, setDistOk := true
                       sensOk := fun _ => true, endOk := false } 2).1
      ∧ (configure { enableOk := true, setDistOk := true
                     sensOk := fun _ => true, endOk := false } 2).2 = false := by
  have h := C8_cleanup_amended
    { enableOk := true, setDistOk := true, sensOk := fun _ => true, endOk := false } 2 rfl
  exact ⟨h.1, h.2.2.1 rfl⟩


/-! ## Helper lemmas on one fusion tick -/

theorem tick_proj (cfg : SysConfig) (s : SysState) (now : ℚ) (dyn stat : Bool) :
    (checkPresenceAndUpdate cfg s now dyn stat).static_detected = stat
    ∧ (checkPresenceAndUpdate cfg s now dyn stat).dynamic_detection_active
        = ((decide (3 ≤ ((if dyn then s.dynamic_detection_history ++ [now]
                          else s.dynamic_detection_history).filter
                        (fun t => decide (now - t ≤ 3))).length))
           || activeUntilHolds s.dynamic_detection_active_until now)
    ∧ (checkPresenceAndUpdate cfg s now dyn stat).robust_presence_detected
        = ((checkPresenceAndUpdate cfg s now dyn stat).dynamic_detection_active && stat)
    ∧ (checkPresenceAndUpdate cfg s now dyn stat).state.dynamic_detection_active_until
        = (if decide (3 ≤ ((if dyn then s.dynamic_detection_history ++ [now]
                            else s.dynamic_detection_history).filter
                          (fun t => decide (now - t ≤ 3))).length)
           then some (now + cfg.dynamic_detection_duration)
           else s.dynamic_detection_active_until)
    ∧ (checkPresenceAndUpdate cfg s now dyn stat).state.dynamic_detection_history
        = (if dyn then s.dynamic_detection_history ++ [now]
           else s.dynamic_detection_history).filter (fun t => decide (now - t ≤ 3)) := by
  have hbool : ∀ c d : Bool, (if c then true else if d then true else false) = (c || d) := by
    decide
  simp only [checkPresenceAndUpdate]
  refine ⟨trivial, hbool _ _, trivial, ?_, ?_⟩
  · rw [apply_ite (fun st : SysState => st.dynamic_detection_active_until),
      apply_ite (fun st : SysState => st.dynamic_detection_active_until)]
    dsimp only
    rw [ite_self, ite_self]
  · rw [apply_ite (fun st : SysState => st.dynamic_detection_history),
      apply_ite (fun st : SysState => st.dynamic_detection_history)]
    dsimp only
    rw [ite_self, ite_self]

/-! ## C2 — robust presence AND gate -/

/-- C2.  Robust presence is the logical AND of the two evidence tracks: on any
tick, dynamic active with static inactive gives no robust presence; dynamic
inactive with static active gives no robust presence; both active give robust
presence. -/
theorem C2_robust_and_gate (cfg : SysConfig) (s : SysState) (now : ℚ)
    (dyn stat : Bool) :
    ((checkPresenceAndUpdate cfg s now dyn stat).dynamic_detection_active = true →
        (checkPresenceAndUpdate cfg s now dyn stat).static_detected = false →
        (checkPresenceAndUpdate cfg s now dyn stat).robust_presence_detected = false)
    ∧ ((checkPresenceAndUpdate cfg s now dyn stat).dynamic_detection_active = false →
        (checkPresenceAndUpdate cfg s now dyn stat).static_detected = true →
        (checkPresenceAndUpdate cfg s now dyn stat).robust_presence_detected = false)
    ∧ ((checkPresenceAndUpdate cfg s now dyn stat).dynamic_detection_active = true →
        (checkPresenceAndUpdate cfg s now dyn stat).static_detected = true →
        (checkPresenceAndUpdate cfg s now dyn stat).robust_presence_detected = true) := by
  obtain ⟨hstat, -, hrob, -, -⟩ := tick_proj cfg s now dyn stat
  refine ⟨?_, ?_, ?_⟩ <;> intro h1 h2 <;> rw [hstat] at h2 <;> rw [hrob, h1, h2] <;> rfl

/-- Witness for C2: a tick inside the 5-minute cooldown window with a static
target present yields robust presence. -/
theorem C2_robust_and_gate_witness :
    (checkPresenceAndUpdate (mkConfig 900)
        { last_presence_time := none, dynamic_detection_history := []
          dynamic_detection_active_until := some 10, relayOn := false
          audioPlaying := false } 5 false true).robust_presence_detected = true :=
  (C2_robust_and_gate (mkConfig 900) _ 5 false true).2.2
    (by norm_num [checkPresenceAndUpdate, activeUntilHolds, mkConfig])
    (by norm_num [checkPresenceAndUpdate, activeUntilHolds, mkConfig])

/-! ## C1 — dynamic-evidence hysteresis -/

/-- Claim C1 as stated is false on the code: after motion at ticks 0, 1 and 2,
a no-motion tick at t = 3 still finds all three timestamps inside its 3-second
window (the prune keeps entries with now - t <= 3.0), re-triggers the
continuous-detection branch and refreshes active-until to 303.  A tick at
t = 302.5 — which is at or after 302.000001 — therefore still reports dynamic
evidence active, while the claim requires it to be inactive there. -/
theorem C1_dynamic_hysteresis_cex :
    (runOutputs (mkConfig 900) initialState
        [(0, true, false), (1, true, false), (2, true, false),
         (3, false, false), (302.5, false, false)]).map
        (fun r => r.dynamic_detection_active)
      = [false, false, true, true, true]
    ∧ (302.000001 : ℚ) ≤ 302.5
    ∧ (runTicks (mkConfig 900) initialState
        [(0, true, false), (1, true, false), (2, true, false),
         (3, false, false)]).dynamic_detection_active_until = some 303 := by
  refine ⟨?_, by norm_num, ?_⟩ <;>
    norm_num [runOutputs, runTicks, checkPresenceAndUpdate, activeUntilHolds,
      mkConfig, initialState]

theorem C1_tick_cooldown (s : SysState) (t : ℚ)
    (hau : s.dynamic_detection_active_until = some 302)
    (hh : s.dynamic_detection_history = [0, 1, 2]
        ∨ s.dynamic_detection_history.length ≤ 2)
    (ht : 3 < t) :
    (checkPresenceAndUpdate (mkConfig 900) s t false false).dynamic_detection_active
        = decide (t < 302)
    ∧ (checkPresenceAndUpdate (mkConfig 900) s t false
          false).state.dynamic_detection_active_until = some 302
    ∧ ((checkPresenceAndUpdate (mkConfig 900) s t false
            false).state.dynamic_detection_history = [0, 1, 2]
        ∨ (checkPresenceAndUpdate (mkConfig 900) s t false
            false).state.dynamic_detection_history.length ≤ 2) := by
  obtain ⟨-, hdyn, -, hauP, hhist⟩ := tick_proj (mkConfig 900) s t false false
  have hlen : ((s.dynamic_detection_history).filter
      (fun x => decide (t - x ≤ 3))).length ≤ 2 := by
    rcases hh with h | h
    · rw [h, List.filter_cons]
      rw [if_neg (by simp; linarith)]
      exact le_trans (List.length_filter_le _ _) (by simp)
    · exact le_trans (List.length_filter_le _ _) h
  have hcont : decide (3 ≤ ((if false then s.dynamic_detection_history ++ [t]
      else s.dynamic_detection_history).filter
      (fun x => decide (t - x ≤ 3))).length) = false := by
    simp only [Bool.false_eq_true, if_false]
    simp only [decide_eq_false_iff_not]
    omega
  refine ⟨?_, ?_, ?_⟩
  · rw [hdyn, hcont, hau]
    simp only [Bool.false_or, activeUntilHolds]
    have h302 : decide ((302 : ℚ) ≠ 0) = true := by
      simp
    rw [h302, Bool.true_and]
  · rw [hauP, hcont, hau]
    simp
  · right
    rw [hhist]
    simp only [Bool.false_eq_true, if_false]
    exact hlen

theorem C1_run : ∀ (ts : List ℚ) (s : SysState),
    s.dynamic_detection_active_until = some 302 →
    (s.dynamic_detection_history = [0, 1, 2]
        ∨ s.dynamic_detection_history.length ≤ 2) →
    (∀ t ∈ ts, 3 < t) →
    (runOutputs (mkConfig 900) s (ts.map (fun t => (t, false, false)))).map
        (fun r => r.dynamic_detection_active)
      = ts.map (fun t => decide (t < 302))
  | [], _, _, _, _ => by simp [runOutputs]
  | t :: ts, s, hau, hh, hts => by
    obtain ⟨h1, h2, h3⟩ := C1_tick_cooldown s t hau hh (hts t (List.mem_cons_self t ts))
    simp only [List.map_cons, runOutputs, h1]
    rw [C1_run ts _ h2 h3 (fun x hx => hts x (List.mem_cons_of_mem _ hx))]

/-- C1 (amended).  With motion at ticks 0, 1 and 2 and no motion later,
dynamic evidence is inactive at ticks 0 and 1, becomes active at t = 2 with
active-until = 302, and — provided no later tick occurs at or before t = 3
(such a tick would still see three detections in its window and refresh
active-until) — every later no-motion tick reports dynamic evidence active
exactly when its time is strictly below 302; in particular it is inactive on
any tick at or after 302.000001. -/
theorem C1_dynamic_hysteresis (ts : List ℚ) (hts : ∀ t ∈ ts, 3 < t) :
    ((runOutputs (mkConfig 900) initialState
        [(0, true, false), (1, true, false), (2, true, false)]).map
        (fun r => r.dynamic_detection_active) = [false, false, true])
    ∧ ((runTicks (mkConfig 900) initialState
        [(0, true, false), (1, true, false), (2, true, false)]).dynamic_detection_active_until
        = some 302)
    ∧ ((runOutputs (mkConfig 900)
          (runTicks (mkConfig 900) initialState
            [(0, true, false), (1, true, false), (2, true, false)])
          (ts.map (fun t => (t, false, false)))).map
          (fun r => r.dynamic_detection_active)
        = ts.map (fun t => decide (t < 302))) := by
  have hstate : runTicks (mkConfig 900) initialState
      [(0, true, false), (1, true, false), (2, true, false)]
      = { last_presence_time := none, dynamic_detection_history := [0, 1, 2]
          dynamic_detection_active_until := some 302, relayOn := false
          audioPlaying := false } := by
    norm_num [runTicks, checkPresenceAndUpdate, activeUntilHolds, mkConfig, initialState]
  refine ⟨?_, ?_, ?_⟩
  · norm_num [runOutputs, checkPresenceAndUpdate, activeUntilHolds, mkConfig, initialState]
  · rw [hstate]
  · rw [hstate]
    exact C1_run ts _ rfl (Or.inl rfl) hts

/-- Witness for C1: probing at t = 4 (active) and t = 302.000001 (inactive). -/
theorem C1_dynamic_hysteresis_witness :
    (runOutputs (mkConfig 900)
        (runTicks (mkConfig 900) initialState
          [(0, true, false), (1, true, false), (2, true, false)])
        (([4, 302.000001] : List ℚ).map (fun t => (t, false, false)))).map
        (fun r => r.dynamic_detection_active)
      = ([4, 302.000001] : List ℚ).map (fun t => decide (t < 302)) :=
  (C1_dynamic_hysteresis [4, 302.000001] (by norm_num)).2.2

/-! ## C3 — relay off-delay -/

/-- C3 (code bug).  The claim states the intended relay off-delay behaviour:
with off-delay 900 seconds and robust presence last true at t = 0, the relay
stays energized through t = 899 and is de-energized at ticks t ≥ 900.  The
code cannot do this: both relay conditions call `relay.is_turned_on()`, a
method `USBRelay` does not define, so with a connected relay an
`AttributeError` is raised and swallowed by the exception handler, and
`relay.turn_off()` (like `relay.turn_on()`) is unreachable.  This theorem
evaluates the embedded code: no tick ever changes the relay state, and in
particular at a tick at t = 901 — past the 900-second off-delay measured from
the last presence at t = 0 — the connected relay is still energized. -/
theorem C3_relay_off_delay :
    (∀ (cfg : SysConfig) (s : SysState) (now : ℚ) (dyn stat : Bool),
        (checkPresenceAndUpdate cfg s now dyn stat).state.relayOn = s.relayOn)
    ∧ (runTicks (mkConfig 900)
        { last_presence_time := some 0, dynamic_detection_history := []
          dynamic_detection_active_until := none, relayOn := true
          audioPlaying := false } [(901, false, false)]).relayOn = true := by
  have hrelay : ∀ (cfg : SysConfig) (s : SysState) (now : ℚ) (dyn stat : Bool),
      (checkPresenceAndUpdate cfg s now dyn stat).state.relayOn = s.relayOn := by
    intro cfg s now dyn stat
    simp only [checkPresenceAndUpdate]
    rw [apply_ite (fun st : SysState => st.relayOn),
      apply_ite (fun st : SysState => st.relayOn)]
    dsimp only
    rw [ite_self, ite_self]
  refine ⟨hrelay, ?_⟩
  simp only [runTicks]
  rw [hrelay]

end Crescendo
